import Mathlib

/-!
Verification of the WinampControls optimistic state-reconciliation engine.

Shallow embedding of `src/WinampClient.ts` (remote client: call layer,
consecutive-failure counter, response parsing, repeat-mode bookkeeping,
volume clamping) and `src/WinampStore.ts` (reconciliation store: media
actions with optimistic updates and error patches, the position
getter/setter pair, the poll tick, and the `WINAMP_PLAYER_STATE` Flux
action handler).  Times (`Date.now()`) are passed explicitly as `Int`
millisecond values; asynchronous calls are modelled by passing the call's
eventual outcome as an explicit argument.
-/

namespace Winamp

/-- Three-value repeat mode (`RepeatMode` in WinampClient.ts). -/
inductive RepeatMode where
  | off
  | track
  | playlist
deriving DecidableEq

/-- Track value object (interface `Track` in WinampClient.ts). -/
structure Track where
  id : String
  name : String
  duration : Int
  artist : String
  filePath : String
  playlistIndex : Int
deriving DecidableEq

/-- Store state: the mutable fields of the `WinampStore` class
(WinampStore.ts lines 127-139).  `repeatMode` embeds the field named
`repeat` in the source (a reserved word in Lean).  `lastConsecutiveFailure`
holds the `failureCount` of the recorded `ConsecutiveFailuresError`, if any. -/
structure StoreState where
  mPosition : Int
  _start : Int
  track : Option Track
  isPlaying : Bool
  repeatMode : RepeatMode
  shuffle : Bool
  volume : Int
  isSettingPosition : Bool
  isPollingEnabled : Bool
  lastConsecutiveFailure : Option Nat
deriving DecidableEq

/-- Field initializers of the `WinampStore` class (WinampStore.ts lines 127-139). -/
def initialStoreState : StoreState where
  mPosition := 0
  _start := 0
  track := none
  isPlaying := false
  repeatMode := .off
  shuffle := false
  volume := 0
  isSettingPosition := false
  isPollingEnabled := true
  lastConsecutiveFailure := none

/-- Public `position` getter (WinampStore.ts lines 156-162):
`pos = mPosition; if (isPlaying) pos += Date.now() - _start`. -/
def position (s : StoreState) (now : Int) : Int :=
  s.mPosition + (if s.isPlaying then now - s._start else 0)

/-- Public `position` setter (WinampStore.ts lines 164-167):
`mPosition = p; _start = Date.now()`. -/
def setPosition (s : StoreState) (p : Int) (now : Int) : StoreState :=
  { s with mPosition := p, _start := now }

/-- Mutable fields of the `WinampClient` class (WinampClient.ts lines 146-150)
that the claims depend on.  `repeatMode` is the locally remembered
three-value repeat mode. -/
structure ClientState where
  consecutiveFailures : Nat
  isConnectedState : Bool
  repeatMode : RepeatMode
deriving DecidableEq

/-- Field initializers of `WinampClient` (WinampClient.ts lines 146-150). -/
def initialClientState : ClientState where
  consecutiveFailures := 0
  isConnectedState := false
  repeatMode := .off

/-- Threshold `maxConsecutiveFailures` (WinampClient.ts line 150). -/
def maxConsecutiveFailures : Nat := 5

/-- The `handleCallFailure` method (WinampClient.ts lines 209-219): flags
disconnected, increments the counter, and throws `ConsecutiveFailuresError`
(carrying the current count, returned here as `some count`) once the
counter reaches the threshold. -/
def handleCallFailure (s : ClientState) : ClientState × Option Nat :=
  let s' := { s with isConnectedState := false,
                     consecutiveFailures := s.consecutiveFailures + 1 }
  if s'.consecutiveFailures ≥ maxConsecutiveFailures then
    (s', some s'.consecutiveFailures)
  else
    (s', none)

/-- Typed value produced by `parseResponse`: the raw text, or a number. -/
inductive RespValue where
  | str (s : String)
  | num (n : Int)
deriving DecidableEq

/-- Model of the JavaScript `String.prototype.trim()` applied to the
response body in `call` (WinampClient.ts line 195): strips leading and
trailing whitespace. -/
def jsTrim (s : String) : String :=
  String.mk (((s.toList.dropWhile Char.isWhitespace).reverse.dropWhile
    Char.isWhitespace).reverse)

/-- Parses a non-empty all-digit character list as a decimal natural. -/
def digitsToNat? (cs : List Char) : Option Nat :=
  if cs.isEmpty then none
  else if cs.all Char.isDigit then
    some (cs.foldl (fun n c => n * 10 + (c.toNat - '0'.toNat)) 0)
  else none

/-- Modelled restriction of the JavaScript `Number(text)` conversion to the
decimal-integer response texts used by the httpQ protocol: an optional sign
followed by decimal digits parses to that integer, anything else is `none`
(the cases where `Number` yields `NaN` on this domain). -/
def jsNumber? (text : String) : Option Int :=
  match text.toList with
  | '-' :: rest => (digitsToNat? rest).map (fun n => -(n : Int))
  | '+' :: rest => (digitsToNat? rest).map (fun n => (n : Int))
  | cs => (digitsToNat? cs).map (fun n => (n : Int))

/-- The `parseResponse` helper (WinampClient.ts lines 485-499).  The input
`text` has already been trimmed by `call`.  An `Except.error` models a
thrown exception. -/
def parseResponse (endpoint : String) (text : String) : Except String RespValue :=
  if text = "" then .ok (.str "")
  else if endpoint = "getversion" ∧ text = "0" then
    .error "Winamp httpQ plugin not available or responding with invalid version"
  else
    match jsNumber? text with
    | some n => .ok (.num n)
    | none => .ok (.str text)

/-- Outcome of the host fetch function: a resolved `{status, data}` pair, or
a rejected promise (the `FetchFunction` contract, WinampClient.ts line 89;
note the shipped `vencordFetch`/`browserFetch` never reject, they resolve
with `status = -1`). -/
inductive FetchOutcome where
  | ok (status : Int) (data : String)
  | reject (msg : String)
deriving DecidableEq

/-- What a single `call` invocation produces: a decoded value, an ordinary
thrown error, or a thrown `ConsecutiveFailuresError` carrying its count. -/
inductive CallOutcome where
  | success (v : RespValue)
  | error (msg : String)
  | fatal (count : Nat)
deriving DecidableEq

/-- The private `call` method (WinampClient.ts lines 178-207), given the
fetch outcome.  Faithful to the source's control flow: on a non-200 status
`handleCallFailure` runs inside the `try`, the subsequently thrown error is
caught by the method's own `catch`, which runs `handleCallFailure` a second
time; on a rejected fetch only the `catch` runs it; on a 200 status the
counter is reset and the trimmed body parsed (a `parseResponse` throw is
also caught by the `catch`). -/
def callStep (s : ClientState) (endpoint : String) (fr : FetchOutcome) :
    ClientState × CallOutcome :=
  match fr with
  | .reject msg =>
    match handleCallFailure s with
    | (s1, some n) => (s1, .fatal n)
    | (s1, none) => (s1, .error msg)
  | .ok status data =>
    if status ≠ 200 then
      let r1 := handleCallFailure s
      let r2 := handleCallFailure r1.1
      match r2.2 with
      | some n => (r2.1, .fatal n)
      | none =>
        match r1.2 with
        | some n => (r2.1, .fatal n)
        | none => (r2.1, .error ("HTTP " ++ toString status ++ ": " ++ data))
    else
      let s1 := { s with consecutiveFailures := 0, isConnectedState := true }
      match parseResponse endpoint (jsTrim data) with
      | .ok v => (s1, .success v)
      | .error msg =>
        match handleCallFailure s1 with
        | (s2, some n) => (s2, .fatal n)
        | (s2, none) => (s2, .error msg)

/-- Iterated `call` invocations (e.g. the successive remote calls of a
polling streak), threading the client state; returns the final client state
and the last call's outcome. -/
def callStreak (s : ClientState) (endpoint : String) (frs : List FetchOutcome) :
    ClientState × CallOutcome :=
  frs.foldl (fun acc fr => callStep acc.1 endpoint fr) (s, .success (.str ""))

/-- The repeat-mode update performed by `getPlayerState` (WinampClient.ts
line 254): `this.repeatMode = repeat === 1 ? this.repeatMode : "off"`,
where `flag` is the polled `repeat_status` value. -/
def updateRepeatFromPoll (c : ClientState) (flag : Int) : ClientState :=
  { c with repeatMode := if flag = 1 then c.repeatMode else .off }

/-- The `setRepeat` method (WinampClient.ts lines 442-454): records the mode
locally and returns the `enable` bit sent to the `repeat` command
(`0` iff the mode is `off`, else `1`). -/
def setRepeat (c : ClientState) (mode : RepeatMode) : ClientState × Int :=
  ({ c with repeatMode := mode }, if mode = .off then 0 else 1)

/-- The clamp in `setVolume` (WinampClient.ts line 436):
`Math.max(0, Math.min(255, level))` — the level actually sent on the wire. -/
def setVolumeLevel (level : Int) : Int :=
  max 0 (min 255 level)

/-- The media-control endpoints of the store together with their arguments
(the `MediaEndpoints` map, WinampStore.ts lines 25-33). -/
inductive MediaAction where
  | prev
  | next
  | setVolume (volume : Int)
  | setPlaying (playing : Bool)
  | setRepeat (mode : RepeatMode)
  | setShuffle (state : Bool)
  | seek (ms : Int)
deriving DecidableEq

/-- Discriminates the `seek` endpoint (the string comparisons
`endpoint === "seek"` in `executeMediaAction`). -/
def MediaAction.isSeek : MediaAction → Bool
  | .seek _ => true
  | _ => false

/-- The `optimisticUpdate` of each entry of `MEDIA_ACTIONS`
(WinampStore.ts lines 76-116), applied to the current store state via
`Object.assign`.  `prev`/`next` contribute the empty patch; `setPlaying`
re-anchors `_start` only when resuming playback; `seek` writes
`mPosition`, `_start` and `isSettingPosition`. -/
def optimisticUpdate : MediaAction → StoreState → Int → StoreState
  | .prev, s, _ => s
  | .next, s, _ => s
  | .setVolume v, s, _ => { s with volume := v }
  | .setPlaying b, s, now => { s with isPlaying := b, _start := if b then now else s._start }
  | .setRepeat m, s, _ => { s with repeatMode := m }
  | .setShuffle b, s, _ => { s with shuffle := b }
  | .seek ms, s, now => { s with mPosition := ms, _start := now, isSettingPosition := true }

/-- Whether the `MEDIA_ACTIONS` entry defines an `errorHandler`
(WinampStore.ts lines 95-97 for `setPlaying`, line 114 for `seek`). -/
def hasErrorHandler : MediaAction → Bool
  | .setPlaying _ => true
  | .seek _ => true
  | _ => false

/-- The `errorHandler` patch of each `MEDIA_ACTIONS` entry, applied to the
state at failure time: `setPlaying` sets `isPlaying` to the negation of the
requested argument (WinampStore.ts lines 95-97); `seek` sets
`isSettingPosition` to `false` (line 114); all other actions define none
(identity). -/
def errorPatch : MediaAction → StoreState → StoreState
  | .setPlaying b, s => { s with isPlaying := !b }
  | .seek _, s => { s with isSettingPosition := false }
  | _, s => s

/-- Result returned to the caller of `executeMediaAction`: the resolved
boolean, or the re-raised error. -/
inductive ActionResult where
  | resolved (b : Bool)
  | raised
deriving DecidableEq

/-- Observable outcome of one `executeMediaAction` run: the final store
state, the value returned (or error re-raised) to the caller, whether the
remote client method was invoked at all, and how many `emitChange`
notifications were emitted. -/
structure ExecOutcome where
  state : StoreState
  result : ActionResult
  networkCalled : Bool
  emitCount : Nat
deriving DecidableEq

/-- The `executeMediaAction` method (WinampStore.ts lines 170-225).
`callRes` is the eventual outcome of the awaited client method:
`some b` when it resolves with `b`, `none` when it rejects.  The seek
guard (lines 175-177) returns `true` without touching state or network.
Otherwise the optimistic patch is applied and emitted (`applyStateUpdate`),
the client method awaited; on success the seek flag is cleared for `seek`;
on failure the action's `errorHandler` patch, when defined, is applied and
emitted, the seek flag cleared for `seek`, and the error re-raised. -/
def executeMediaAction (s : StoreState) (a : MediaAction) (now : Int)
    (callRes : Option Bool) : ExecOutcome :=
  if a.isSeek && s.isSettingPosition then
    { state := s, result := .resolved true, networkCalled := false, emitCount := 0 }
  else
    let s1 := optimisticUpdate a s now
    match callRes with
    | some b =>
      let s2 := if a.isSeek then { s1 with isSettingPosition := false } else s1
      { state := s2, result := .resolved b, networkCalled := true, emitCount := 1 }
    | none =>
      let s2 := if hasErrorHandler a then errorPatch a s1 else s1
      let s3 := if a.isSeek then { s2 with isSettingPosition := false } else s2
      { state := s3, result := .raised, networkCalled := true,
        emitCount := if hasErrorHandler a then 2 else 1 }

/-- Payload of a `WINAMP_PLAYER_STATE` Flux dispatch (WinampStore.ts
line 418); fields are optional because the handler guards each one with a
default (`?? false`, `?? 0`, `|| "off"`). -/
structure PlayerStateEvent where
  track : Option Track
  volume : Option Int
  isPlaying : Option Bool
  repeatMode : Option RepeatMode
  shuffle : Option Bool
  position : Option Int
  isConnected : Option Bool
deriving DecidableEq

/-- The `WINAMP_PLAYER_STATE` action handler (WinampStore.ts lines
418-427): overwrites each store field with the dispatched value (position
through the `position` setter, which re-anchors `_start` to `now`), clears
`isSettingPosition`, and unconditionally calls `emitChange` (the returned
boolean). -/
def applyPlayerStateEvent (s : StoreState) (e : PlayerStateEvent) (now : Int) :
    StoreState × Bool :=
  let s1 := { s with track := e.track,
                     isPlaying := e.isPlaying.getD false,
                     volume := e.volume.getD 0,
                     repeatMode := e.repeatMode.getD .off,
                     shuffle := e.shuffle.getD false }
  let s2 := setPosition s1 (e.position.getD 0) now
  ({ s2 with isSettingPosition := false }, true)

/-- The consolidated `PlayerState` assembled by `WinampClient.getPlayerState`
(WinampClient.ts lines 106-131, 259-273). -/
structure PlayerSnapshot where
  track : Option Track
  isPlaying : Bool
  isPaused : Bool
  isStopped : Bool
  position : Int
  volume : Int
  playlistPosition : Int
  playlistLength : Int
  repeatMode : RepeatMode
  shuffle : Bool
  isConnected : Bool
deriving DecidableEq

/-- The dispatch issued by the poll tick on a successful fetch
(WinampStore.ts lines 281-290). -/
def eventOfSnapshot (ps : PlayerSnapshot) : PlayerStateEvent where
  track := ps.track
  volume := some ps.volume
  isPlaying := some ps.isPlaying
  repeatMode := some ps.repeatMode
  shuffle := some ps.shuffle
  position := some ps.position
  isConnected := some ps.isConnected

/-- The synthetic disconnected-state dispatch of the tick's fatal branch
(WinampStore.ts lines 299-308). -/
def disconnectedEvent : PlayerStateEvent where
  track := none
  volume := some 0
  isPlaying := some false
  repeatMode := some .off
  shuffle := some false
  position := some 0
  isConnected := some false

/-- An error value propagating out of an awaited promise: a plain `Error`,
or a `ConsecutiveFailuresError` carrying its failure count. -/
inductive ThrownError where
  | plain (msg : String)
  | consecutiveFailures (count : Nat)
deriving DecidableEq

/-- What `WinampClient.getPlayerState` delivers to its awaiter: a snapshot,
or a thrown error. -/
inductive PlayerStateFetch where
  | ok (snapshot : PlayerSnapshot)
  | err (e : ThrownError)
deriving DecidableEq

/-- The error wrapping in `WinampClient.getPlayerState` (WinampClient.ts
lines 281-284): when any underlying `call` fails — including with a
`ConsecutiveFailuresError` — the `catch` replaces it with a NEW plain
`Error` whose message merely embeds the original message, so the
distinguished error type never escapes this method. -/
def getPlayerStateResult (callResult : CallOutcome) (snap : PlayerSnapshot) :
    PlayerStateFetch :=
  match callResult with
  | .success _ => .ok snap
  | .error msg => .err (.plain ("Failed to get player state: " ++ msg))
  | .fatal n =>
    .err (.plain ("Failed to get player state: HttpQ connection failed "
      ++ toString n ++ " consecutive times"))

/-- The store's `getCurrentState` method (WinampStore.ts lines 236-250):
on success it syncs local position tracking (when a track is present and no
seek is in flight) and returns the snapshot; its `catch` swallows EVERY
error, logs it, and returns `null` — so this method never throws. -/
def getCurrentStateStep (s : StoreState) (fetch : PlayerStateFetch) (now : Int) :
    StoreState × Option PlayerSnapshot :=
  match fetch with
  | .ok ps =>
    let s1 := if ps.track.isSome && !s.isSettingPosition
              then setPosition s ps.position now else s
    (s1, some ps)
  | .err _ => (s, none)

/-- The `catch` branch of the poll tick callback (WinampStore.ts lines
292-311): on a `ConsecutiveFailuresError` it records the failure, disables
polling and dispatches the disconnected state; any other error is only
logged.  Returns the new state and whether a change was emitted. -/
def handlePollError (s : StoreState) (e : ThrownError) (now : Int) :
    StoreState × Bool :=
  match e with
  | .consecutiveFailures n =>
    let s1 := { s with lastConsecutiveFailure := some n, isPollingEnabled := false }
    applyPlayerStateEvent s1 disconnectedEvent now
  | .plain _ => (s, false)

/-- One iteration of the polling interval callback (WinampStore.ts lines
272-313): skip when polling is disabled; otherwise run `getCurrentState`
and, when it returns a snapshot, dispatch `WINAMP_PLAYER_STATE`.  Because
`getCurrentStateStep` is total (its source `catch` swallows every error
and returns `null`), the tick's own `catch` (`handlePollError`) is never
reached.  Returns the new state and whether a change was emitted. -/
def pollTick (s : StoreState) (fetch : PlayerStateFetch) (now : Int) :
    StoreState × Bool :=
  if !s.isPollingEnabled then (s, false)
  else
    let r := getCurrentStateStep s fetch now
    match r.2 with
    | some ps => applyPlayerStateEvent r.1 (eventOfSnapshot ps) now
    | none => (r.1, false)

/-- Enumeration of every store-state write in WinampStore.ts: the
optimistic patch and the error patch of each media action, the `position`
setter, and the `WINAMP_PLAYER_STATE` handler. -/
inductive StoreWrite where
  | optimistic (a : MediaAction)
  | errorComp (a : MediaAction)
  | positionSet (p : Int)
  | pollApply (e : PlayerStateEvent)

/-- Applies one store-state write at time `now`. -/
def applyStoreWrite : StoreWrite → StoreState → Int → StoreState
  | .optimistic a, s, now => optimisticUpdate a s now
  | .errorComp a, s, _ => errorPatch a s
  | .positionSet p, s, now => setPosition s p now
  | .pollApply e, s, now => (applyPlayerStateEvent s e now).1

/-- A concrete player snapshot used in closed demonstrations. -/
def demoSnapshot : PlayerSnapshot where
  track := none
  isPlaying := false
  isPaused := false
  isStopped := true
  position := 0
  volume := 0
  playlistPosition := 0
  playlistLength := 0
  repeatMode := .off
  shuffle := false
  isConnected := false

/-! Theorems settling the claims. -/

/-- Claim C1, counterexample: in the spec's own scenario — `setVolume(120)`
applies its optimistic patch, then a poll that started earlier resolves
with `volume=80` and is dispatched — the final stored volume is 80, not
120: the `WINAMP_PLAYER_STATE` handler overwrites the optimistic value
regardless of timing. -/
theorem stale_poll_overwrites_optimistic_volume :
    (optimisticUpdate (.setVolume 120) initialStoreState 1000).volume = 120
    ∧ (applyPlayerStateEvent (optimisticUpdate (.setVolume 120) initialStoreState 1000)
        { track := none, volume := some 80, isPlaying := some true,
          repeatMode := some .off, shuffle := some false,
          position := some 0, isConnected := some true } 1010).1.volume = 80
    ∧ (applyPlayerStateEvent (optimisticUpdate (.setVolume 120) initialStoreState 1000)
        { track := none, volume := some 80, isPlaying := some true,
          repeatMode := some .off, shuffle := some false,
          position := some 0, isConnected := some true } 1010).1.volume ≠ 120 := by
  decide

/-- Claim C1, amended: the store performs no timestamp-based conflict
resolution — the `WINAMP_PLAYER_STATE` handler applies every polled field
unconditionally, overwriting any optimistic value, whatever the relative
timing of poll start and optimistic write. -/
theorem player_state_handler_overwrites_unconditionally
    (s : StoreState) (e : PlayerStateEvent) (now : Int) :
    (applyPlayerStateEvent s e now).1.volume = e.volume.getD 0
    ∧ (applyPlayerStateEvent s e now).1.isPlaying = e.isPlaying.getD false
    ∧ (applyPlayerStateEvent s e now).1.track = e.track
    ∧ (applyPlayerStateEvent s e now).1.repeatMode = e.repeatMode.getD .off
    ∧ (applyPlayerStateEvent s e now).1.shuffle = e.shuffle.getD false
    ∧ (applyPlayerStateEvent s e now).1.mPosition = e.position.getD 0 :=
  ⟨rfl, rfl, rfl, rfl, rfl, rfl⟩

/-- Claim C2: the code cannot perform the claimed transition.  Five
consecutive rejected fetches do make `call` raise
`ConsecutiveFailuresError(5)`, but `getPlayerState` wraps it into a plain
`Error` and the store's `getCurrentState` swallows every error and returns
`null`, so a poll tick ends with the store unchanged: `isPollingEnabled`
stays `true`, no failure is recorded, nothing is emitted.  The tick's
fatal branch (`handlePollError`), which would have performed exactly the
claimed transition, is unreachable. -/
theorem fatal_streak_error_swallowed_before_poll_tick :
    (callStreak initialClientState "getvolume"
        (List.replicate 5 (.reject "ECONNREFUSED"))).2 = .fatal 5
    ∧ getPlayerStateResult (.fatal 5) demoSnapshot
        = .err (.plain "Failed to get player state: HttpQ connection failed 5 consecutive times")
    ∧ pollTick initialStoreState (getPlayerStateResult (.fatal 5) demoSnapshot) 1000
        = (initialStoreState, false)
    ∧ initialStoreState.isPollingEnabled = true
    ∧ initialStoreState.lastConsecutiveFailure = none
    ∧ (handlePollError initialStoreState (.consecutiveFailures 5) 1000).1.isPollingEnabled = false
    ∧ (handlePollError initialStoreState (.consecutiveFailures 5) 1000).1.lastConsecutiveFailure
        = some 5 := by
  decide

/-- Claim C3: on a non-200 HTTP response, `call` runs `handleCallFailure`
twice — once in the status check and once more in the surrounding `catch`
that receives the error thrown right after — so one failed call increments
the counter by 2, and a streak of three such calls raises
`ConsecutiveFailuresError` carrying count 6 (not at five failures carrying
5).  The rejected-fetch path increments once, so five rejections do yield
`fatal 5`, a success resets the counter to 0, and a success followed by
four rejections raises no fatal error. -/
theorem non200_failure_double_increments_counter :
    (callStep initialClientState "getvolume" (.ok 500 "server error")).1.consecutiveFailures = 2
    ∧ (callStep initialClientState "getvolume" (.ok 500 "server error")).2
        = .error "HTTP 500: server error"
    ∧ (callStreak initialClientState "getvolume"
        (List.replicate 3 (.ok 500 "server error"))).2 = .fatal 6
    ∧ (callStreak initialClientState "getvolume"
        (List.replicate 5 (.reject "ECONNREFUSED"))).2 = .fatal 5
    ∧ (callStep { initialClientState with consecutiveFailures := 3 } "getvolume"
        (.ok 200 "42")).1.consecutiveFailures = 0
    ∧ (callStreak { initialClientState with consecutiveFailures := 4 } "getvolume"
        ((.ok 200 "1") :: List.replicate 4 (.reject "ECONNREFUSED"))).2
        = .error "ECONNREFUSED" := by
  decide

/-- Claim C4 (confirmed): every store-state write either leaves
`mPosition` unchanged or re-anchors `_start` to the current time; the
seek patch, the `position` setter and the poll handler always re-anchor;
and the public `position` getter is always the derived value
`mPosition + (isPlaying ? now - _start : 0)`. -/
theorem raw_position_writes_reanchor_start (w : StoreWrite) (s : StoreState)
    (now ms p : Int) (e : PlayerStateEvent) :
    ((applyStoreWrite w s now).mPosition = s.mPosition
      ∨ (applyStoreWrite w s now)._start = now)
    ∧ (optimisticUpdate (.seek ms) s now)._start = now
    ∧ (setPosition s p now)._start = now
    ∧ ((applyPlayerStateEvent s e now).1)._start = now
    ∧ position s now = s.mPosition + (if s.isPlaying then now - s._start else 0) := by
  refine ⟨?_, rfl, rfl, rfl, rfl⟩
  cases w with
  | optimistic a => cases a <;> simp [applyStoreWrite, optimisticUpdate]
  | errorComp a => cases a <;> simp [applyStoreWrite, errorPatch]
  | positionSet p => exact Or.inr rfl
  | pollApply e => exact Or.inr rfl

/-- Claim C5 (confirmed): a poll that reads the remote repeat flag as 0
forces the local three-value mode to `off` whatever it was; a poll reading
1 leaves the remembered mode unchanged; `setRepeat(mode)` records `mode`
locally and sends enable bit 0 exactly when `mode` is `off`, else 1. -/
theorem repeat_mode_reconciliation (c : ClientState) (m : RepeatMode) :
    (updateRepeatFromPoll { c with repeatMode := m } 0).repeatMode = .off
    ∧ (updateRepeatFromPoll { c with repeatMode := m } 1).repeatMode = m
    ∧ (setRepeat c m).1.repeatMode = m
    ∧ (setRepeat c m).2 = (if m = .off then 0 else 1) := by
  refine ⟨?_, ?_, rfl, rfl⟩
  · simp [updateRepeatFromPoll]
  · simp [updateRepeatFromPoll]

/-- Claim C6, counterexample: the error patch is not defined only for
play/pause — `seek` defines one as well — and the play/pause rollback sets
`isPlaying` to the negation of the requested argument, not to the
pre-action value: from a state already playing, a failed `setPlaying(true)`
leaves `isPlaying = false` although it was `true` before the action. -/
theorem seek_has_error_patch_and_rollback_negates_argument :
    hasErrorHandler (.seek 0) = true
    ∧ ({ initialStoreState with isPlaying := true } : StoreState).isPlaying = true
    ∧ (executeMediaAction { initialStoreState with isPlaying := true }
        (.setPlaying true) 1000 none).state.isPlaying = false := by
  decide

/-- Claim C6, amended: when a mutating action's remote call fails, the
error is re-raised after applying the action's error patch when one is
defined — play/pause sets `isPlaying` to the negation of the requested
argument, seek sets `isSettingPosition` to `false` — with an extra change
notification; exactly these two actions define a patch, and all other
actions re-raise with no state change beyond the optimistic patch. -/
theorem media_action_failure_applies_error_patch_and_reraises
    (s : StoreState) (a : MediaAction) (now : Int)
    (h : (a.isSeek && s.isSettingPosition) = false) :
    (executeMediaAction s a now none).result = .raised
    ∧ (executeMediaAction s a now none).networkCalled = true
    ∧ (hasErrorHandler a = true ↔ (∃ b, a = .setPlaying b) ∨ (∃ ms, a = .seek ms))
    ∧ (∀ b, a = .setPlaying b →
        (executeMediaAction s a now none).state
          = { optimisticUpdate a s now with isPlaying := !b }
        ∧ (executeMediaAction s a now none).emitCount = 2)
    ∧ (∀ ms, a = .seek ms →
        (executeMediaAction s a now none).state
          = { optimisticUpdate a s now with isSettingPosition := false }
        ∧ (executeMediaAction s a now none).emitCount = 2)
    ∧ (hasErrorHandler a = false →
        (executeMediaAction s a now none).state = optimisticUpdate a s now
        ∧ (executeMediaAction s a now none).emitCount = 1) := by
  cases a <;>
    simp_all [executeMediaAction, MediaAction.isSeek, hasErrorHandler, errorPatch,
      optimisticUpdate]

/-- Claim C6, witness: a failed `setPlaying(true)` from the initial state
re-raises the error to the caller. -/
theorem media_action_failure_witness :
    (executeMediaAction initialStoreState (.setPlaying true) 1000 none).result = .raised :=
  (media_action_failure_applies_error_patch_and_reraises initialStoreState
    (.setPlaying true) 1000 (by decide)).1

/-- Claim C7, counterexample: for the numeric-typed `getvolume` command, an
unparsable non-empty response is not an error — `parseResponse` returns the
raw text as a string value. -/
theorem unparsable_numeric_response_is_not_an_error :
    parseResponse "getvolume" "abc" = .ok (.str "abc") := by
  rfl

/-- Claim C7, amended: `call` trims the response before decoding; the empty
string decodes to the empty-string sentinel; the version query's literal
"0" raises the endpoint-unavailable error; parsable numeric text decodes to
the number; and unparsable non-empty text decodes to the raw string (it is
never an error for commands other than `getversion`). -/
theorem parseResponse_behaviour (ep text : String) (c : ClientState)
    (h1 : jsNumber? text = none) (h2 : text ≠ "")
    (h3 : ¬ (ep = "getversion" ∧ text = "0")) :
    parseResponse ep text = .ok (.str text)
    ∧ parseResponse ep "" = .ok (.str "")
    ∧ parseResponse "getversion" "0"
        = .error "Winamp httpQ plugin not available or responding with invalid version"
    ∧ (callStep c "getcurrenttitle" (.ok 200 "  abc  ")).2 = .success (.str "abc")
    ∧ parseResponse "getvolume" "240" = .ok (.num 240) := by
  refine ⟨?_, rfl, rfl, rfl, rfl⟩
  simp [parseResponse, h1, h2, h3]

/-- Claim C7, witness: the unparsable response "hello" to `getvolume`
decodes to the raw string. -/
theorem parseResponse_behaviour_witness :
    parseResponse "getvolume" "hello" = .ok (.str "hello") :=
  (parseResponse_behaviour "getvolume" "hello" initialClientState
    (by rfl) (by decide) (by decide)).1

/-- Claim C8 (confirmed): a seek request arriving while `isSettingPosition`
is `true` resolves with `true`, issues no network call, emits no change and
leaves the store state untouched. -/
theorem seek_guard_short_circuits (s : StoreState) (ms now : Int) (r : Option Bool)
    (h : s.isSettingPosition = true) :
    executeMediaAction s (.seek ms) now r
      = { state := s, result := .resolved true, networkCalled := false, emitCount := 0 } := by
  simp [executeMediaAction, MediaAction.isSeek, h]

/-- Claim C8, witness: with a seek already in flight, `seek(5000)` is
treated as already-succeeded. -/
theorem seek_guard_short_circuits_witness :
    executeMediaAction { initialStoreState with isSettingPosition := true } (.seek 5000) 1000 none
      = { state := { initialStoreState with isSettingPosition := true },
          result := .resolved true, networkCalled := false, emitCount := 0 } :=
  seek_guard_short_circuits { initialStoreState with isSettingPosition := true }
    5000 1000 none rfl

/-- Claim C9, counterexample: applying the same snapshot twice (at times
1000 then 2000, no optimistic writes in between) does not leave the state
identical — the position anchor `_start` is rewritten — and the handler
emits a change notification on the second application as well. -/
theorem reapplying_snapshot_rewrites_anchor_and_emits :
    ((applyPlayerStateEvent
        ((applyPlayerStateEvent initialStoreState
          { track := none, volume := some 5, isPlaying := some true,
            repeatMode := some .off, shuffle := some false,
            position := some 7, isConnected := some true } 1000).1)
        { track := none, volume := some 5, isPlaying := some true,
          repeatMode := some .off, shuffle := some false,
          position := some 7, isConnected := some true } 2000).1
      ≠ (applyPlayerStateEvent initialStoreState
          { track := none, volume := some 5, isPlaying := some true,
            repeatMode := some .off, shuffle := some false,
            position := some 7, isConnected := some true } 1000).1)
    ∧ (applyPlayerStateEvent
        ((applyPlayerStateEvent initialStoreState
          { track := none, volume := some 5, isPlaying := some true,
            repeatMode := some .off, shuffle := some false,
            position := some 7, isConnected := some true } 1000).1)
        { track := none, volume := some 5, isPlaying := some true,
          repeatMode := some .off, shuffle := some false,
          position := some 7, isConnected := some true } 2000).2 = true := by
  decide

/-- Claim C9, amended: re-applying the same snapshot is idempotent except
for the position anchor — the second application equals the first with
`_start` rewritten to the second application's time — and a change
notification is emitted unconditionally on every application, the second
included. -/
theorem snapshot_reapplication_idempotent_up_to_anchor
    (s : StoreState) (e : PlayerStateEvent) (t1 t2 : Int) :
    (applyPlayerStateEvent (applyPlayerStateEvent s e t1).1 e t2).1
      = { (applyPlayerStateEvent s e t1).1 with _start := t2 }
    ∧ (applyPlayerStateEvent (applyPlayerStateEvent s e t1).1 e t2).2 = true :=
  ⟨rfl, rfl⟩

/-- Claim C10 (confirmed): `WinampClient.setVolume` sends the level clamped
to `max 0 (min 255 n)`; the result is always within `[0, 255]`, and inputs
already in range pass through unchanged. -/
theorem setVolume_clamps_level (n : Int) :
    setVolumeLevel n = max 0 (min 255 n)
    ∧ 0 ≤ setVolumeLevel n
    ∧ setVolumeLevel n ≤ 255
    ∧ (0 ≤ n → n ≤ 255 → setVolumeLevel n = n) := by
  refine ⟨rfl, le_max_left _ _, ?_, fun h1 h2 => ?_⟩
  · exact max_le (by norm_num) (min_le_left _ _)
  · simp [setVolumeLevel, min_eq_right h2, max_eq_right h1]

/-- Claim C10, witness: the in-range volume 120 reaches the wire unchanged. -/
theorem setVolume_clamps_level_witness :
    setVolumeLevel 120 = 120 :=
  (setVolume_clamps_level 120).2.2.2 (by decide) (by decide)

end Winamp
